import Mathlib

/-!
Verification development for the SimRaceStrategist telemetry core.

This file gives a shallow embedding, in Lean 4, of the decoder / tracker /
decision logic of the repository:

* app/f1_udp.py (version 0.3.1): header parsing, the per-packet state
  mutations of F1UDPListener._run for packet ids 1 (session), 2 (car
  telemetry) and 7 (car status), the _Debounce primitive, the robust
  outlier gate _robust_accept_lap, and the per-car / fleet pace-delta
  aggregation of _update_field_metrics_and_emit.
* app/rain_engine.py (version 0.1.6): the score fusion, the hysteresis
  state machines and the advice block of RainEngine.update, together with
  the forecast helpers.

Numbers that the Python code holds as floats are modelled as rationals
(every constant in the source is an exact decimal); machine integers are
Nat or Int with explicit bounds where the source checks them; byte strings
are lists of naturals (one per byte).  Wall-clock / monotonic time is
threaded through explicitly as a rational parameter.  Theorems about the
claims follow after all the definitions.
-/

/-! ### Generic helpers (Python builtins used by the source) -/

/-- Insert a rational into an already sorted list, keeping order.
Helper for the sort used by the Python statistics.median. -/
def sortInsert (x : ℚ) : List ℚ → List ℚ
  | [] => [x]
  | y :: ys => if y < x then y :: sortInsert x ys else x :: y :: ys

/-- Sort a list of rationals ascending (model of Python sorted). -/
def pysort (l : List ℚ) : List ℚ := l.foldr sortInsert []

/-- Python statistics.median on a nonempty list: middle element for odd
length, mean of the two middle elements for even length.  The source only
calls it on nonempty lists; the value on the empty list is irrelevant
junk (0). -/
def pymedian (xs : List ℚ) : ℚ :=
  let s := pysort xs
  let n := s.length
  if n % 2 = 1 then s.getD (n / 2) 0
  else (s.getD (n / 2 - 1) 0 + s.getD (n / 2) 0) / 2

/-- Python int() on a float: truncation toward zero. -/
def pyint (q : ℚ) : ℤ := if q < 0 then ⌈q⌉ else ⌊q⌋

/-- Append to a collections.deque with maxlen k: the oldest element is
dropped from the left once the length would exceed k. -/
def dqAppend (k : Nat) (buf : List ℚ) (x : ℚ) : List ℚ :=
  let b := buf ++ [x]
  b.drop (b.length - k)

/-- Byte access into a datagram (data[i]); out of range reads give 0 but
every guarded read in the embedding is in range, mirroring the length
checks of the source. -/
def byteAt (data : List Nat) (i : Nat) : Nat := data.getD i 0

/-- Little-endian unsigned 32-bit read (struct.unpack_from with format I). -/
def readU32 (data : List Nat) (i : Nat) : Nat :=
  byteAt data i + 256 * byteAt data (i + 1) + 256 ^ 2 * byteAt data (i + 2) +
    256 ^ 3 * byteAt data (i + 3)

/-- Little-endian unsigned 64-bit read (struct.unpack_from with format Q). -/
def readU64 (data : List Nat) (i : Nat) : Nat :=
  readU32 data i + 256 ^ 4 * readU32 data (i + 4)

/-! ### The _Debounce primitive (f1_udp.py lines 84-104)

Only accept a value if it stays the same for n updates or max_age_s
seconds.  The wall-clock time of each update call is passed explicitly. -/

structure Debounce where
  n : Nat
  max_age_s : ℚ
  candidate : Option Nat
  count : Nat
  t0 : ℚ
deriving DecidableEq, Repr

/-- One update call of _Debounce (f1_udp.py lines 93-104): a differing
value resets candidate, count and t0 and yields nothing; a repeated value
bumps the counter and yields the candidate once the counter reaches n or
the candidate is max_age_s old. -/
def Debounce.update (d : Debounce) (now : ℚ) (value : Nat) : Debounce × Option Nat :=
  if some value ≠ d.candidate then
    ({ d with candidate := some value, count := 1, t0 := now }, none)
  else
    let d' : Debounce := { d with count := d.count + 1 }
    if d'.n ≤ d'.count ∨ d'.max_age_s ≤ now - d'.t0 then (d', d'.candidate)
    else (d', none)

/-- Feed the same value repeatedly at the given sequence of times,
collecting the outputs of each call. -/
def Debounce.runSame (d : Debounce) (v : Nat) : List ℚ → Debounce × List (Option Nat)
  | [] => (d, [])
  | t :: ts =>
    let r := d.update t v
    let rest := r.1.runSame v ts
    (rest.1, r.2 :: rest.2)

/-! ### Robust outlier gate (f1_udp.py lines 731-762)

Constants are the listener instance attributes set in __init__. -/

/-- self._your_outlier_sec: fixed absolute acceptance threshold (2.5 s). -/
def your_outlier_sec : ℚ := 5 / 2

/-- self._your_outlier_min_n: minimum history before filtering (3 laps). -/
def your_outlier_min_n : Nat := 3

/-- F1UDPListener._robust_accept_lap: accept unconditionally on a short
buffer, otherwise accept iff the candidate is within
max(2.5, 3.5 * (1.4826 * MAD)) of the buffer median.  The try/except
fallbacks of the source are unreachable here: statistics.median never
raises on the nonempty numeric buffers this gate receives. -/
def _robust_accept_lap (buf : List ℚ) (lap_s : ℚ) : Bool :=
  if buf.length < your_outlier_min_n then true
  else
    let med := pymedian buf
    let devs := buf.map (fun x => |x - med|)
    let mad := pymedian devs
    let sigma := (14826 / 10000 : ℚ) * mad
    let dyn_thr := max your_outlier_sec ((7 / 2) * sigma)
    decide (|lap_s - med| ≤ dyn_thr)

/-! ### RainEngine scoring and fusion (rain_engine.py, version 0.1.6) -/

/-- _clamp01 (rain_engine.py lines 13-18). -/
def _clamp01 (x : ℚ) : ℚ := if x < 0 then 0 else if 1 < x then 1 else x

/-- Forecast helper RainEngine._fc_time_to_below (lines 429-436): first
minute offset whose rain percentage is at or below the threshold. -/
def fcTimeToBelow (threshold : Nat) : List (Nat × Nat × Nat) → Option Nat
  | [] => none
  | (t, r, _w) :: rest => if r ≤ threshold then some t else fcTimeToBelow threshold rest

/-- Forecast helper RainEngine._fc_time_to_above (lines 438-445): first
minute offset whose rain percentage is at or above the threshold. -/
def fcTimeToAbove (threshold : Nat) : List (Nat × Nat × Nat) → Option Nat
  | [] => none
  | (t, r, _w) :: rest => if threshold ≤ r then some t else fcTimeToAbove threshold rest

/-- Weather partial score s0 (lines 169-181): stepped mapping of the
(median) weather enum, truncated to int exactly as Python int() does. -/
def weatherScore (weather_med : Option ℚ) : Option ℚ :=
  weather_med.map fun q =>
    let w := pyint q
    if w ≤ 2 then 0 else if w = 3 then 9 / 20 else if w = 4 then 4 / 5 else 19 / 20

/-- Full-wet weather partial score fw0 (lines 241-249). -/
def fullwetWeatherScore (weather_med : Option ℚ) : Option ℚ :=
  weather_med.map fun q =>
    let w := pyint q
    if w ≤ 3 then 0 else if w = 4 then 3 / 4 else 19 / 20

/-- The add closures of the fusion blocks (lines 216-226 and 265-274):
a missing signal is skipped entirely, an available one contributes a
weighted pair. -/
def addSig (acc : List (ℚ × ℚ)) (sig : Option ℚ) (w : ℚ) : List (ℚ × ℚ) :=
  match sig with
  | none => acc
  | some s => acc ++ [(s, w)]

/-- Weighted average of the collected (signal, weight) pairs, 0 when the
collection is empty (lines 228-232 and 276-280); the denominator is
guarded by max(1e-9, sum of weights) as in the source. -/
def fuseWeighted (parts : List (ℚ × ℚ)) : ℚ :=
  if parts = [] then 0
  else (parts.map fun p => p.1 * p.2).sum /
    max (1 / 1000000000) (parts.map fun p => p.2).sum

/-- Weather floor and safety-car boost applied to the clamped fused
wetness (rain_engine.py lines 236-301): the hard game-state hint floors
the fused score, and under SC/VSC the result is nudged up and clamped
again. -/
def wetnessFloorBoost (w1 : ℚ) (s0 : Option ℚ) (under_sc : Bool) : ℚ :=
  let w2 := match s0 with
    | some v => max w1 v
    | none => w1
  if under_sc then _clamp01 (w2 + 6 / 100) else w2

/-- Floor, clamp and heavy-incoming bump of the full-wet score
(rain_engine.py lines 282-288). -/
def fullwetFinish (fwbase : ℚ) (fw0 : Option ℚ) (heavy_incoming : Bool) : ℚ :=
  let fwfloor := match fw0 with
    | some v => max fwbase (v * (85 / 100))
    | none => fwbase
  let fwcl := _clamp01 fwfloor
  if heavy_incoming then min 1 (fwcl + 1 / 10) else fwcl

/-- The scores produced by one RainEngine.update call: the fused wetness
before the weather floor (value of the local after line 234), the wetness
after floor and safety-car boost (the value returned, line 300), and the
final full-wet score wet_score (line 289 after the heavy-incoming bump). -/
structure FusionOut where
  wetness_pre : ℚ
  wetness : ℚ
  fullwet : ℚ
deriving DecidableEq, Repr

/-- Scoring/fusion portion of RainEngine.update (rain_engine.py lines
168-301), as a pure function of the windowed medians, the optional
baseline loss, and the safety-car / heavy-incoming flags. -/
def fusionStep (weather_med inter_share_med delta_is_med rain_next_med
    baseline_loss track_temp_med wet_share_med delta_wi_med : Option ℚ)
    (under_sc heavy_incoming : Bool) : FusionOut :=
  let s0 := weatherScore weather_med
  let s1 := inter_share_med.map fun x => _clamp01 ((x - 15 / 100) / (35 / 100))
  let s2 := delta_is_med.map fun x => _clamp01 ((-x - 1 / 2) / 2)
  let s3 := rain_next_med.map fun x => _clamp01 ((x - 35) / 35)
  let s4 := baseline_loss.map fun x => _clamp01 ((x - 7 / 10) / 2)
  let temp_boost : ℚ :=
    match track_temp_med with
    | none => 0
    | some tt => _clamp01 ((22 - tt) / 18) * (8 / 100)
  let parts := addSig (addSig (addSig (addSig (addSig [] s0 (3 / 10)) s2 (7 / 20))
      s1 (1 / 4)) s3 (1 / 5)) s4 (1 / 5)
  let fused := fuseWeighted parts
  let w1 := _clamp01 (fused + temp_boost)
  let w3 := wetnessFloorBoost w1 s0 under_sc
  let fw0 := fullwetWeatherScore weather_med
  let fw1 := wet_share_med.map fun x => _clamp01 ((x - 5 / 100) / (25 / 100))
  let fw2 := delta_wi_med.map fun x => _clamp01 ((-x - 1 / 5) / (13 / 10))
  let fw3 := rain_next_med.map fun x => _clamp01 ((x - 60) / 30)
  let fwparts := addSig (addSig (addSig (addSig [] fw0 (7 / 20)) fw2 (7 / 20))
      fw1 (1 / 4)) fw3 (1 / 5)
  let fwbase := fuseWeighted fwparts
  ⟨w1, w3, fullwetFinish fwbase fw0 heavy_incoming⟩

/-! ### Hysteresis state machines (rain_engine.py lines 303-340) -/

/-- The hysteresis thresholds and hold counts of RainEngine.__init__. -/
structure HystConfig where
  on_th : ℚ
  off_th : ℚ
  hold_on : Nat
  hold_off : Nat
  wet_on_th : ℚ
  wet_off_th : ℚ
  wet_hold_on : Nat
  wet_hold_off : Nat
deriving DecidableEq, Repr

/-- The default constructor arguments of RainEngine.__init__ (lines 47-60). -/
def rainDefaults : HystConfig :=
  ⟨13 / 20, 7 / 20, 2, 3, 39 / 50, 11 / 20, 2, 3⟩

/-- Hysteresis state: the two mode flags and their hold counters. -/
structure Hyst where
  is_wet_mode : Bool
  on_counter : Nat
  off_counter : Nat
  is_fullwet_mode : Bool
  wet_on_counter : Nat
  wet_off_counter : Nat
deriving DecidableEq, Repr

/-- One pass of the hysteresis block of RainEngine.update (lines 303-340):
counters bump / reset / decay depending on the score regime, the mode flag
flips at the hold counts, and the full-wet machine only runs while wet
mode is active after this update (otherwise it is cleared). Nat
subtraction models Python max(0, c - 1). -/
def hystStep (cfg : HystConfig) (h : Hyst) (wetness fullwet : ℚ) : Hyst :=
  let oc : Nat × Nat :=
    if cfg.on_th ≤ wetness then (h.on_counter + 1, 0)
    else if wetness ≤ cfg.off_th then (0, h.off_counter + 1)
    else (h.on_counter - 1, h.off_counter - 1)
  let m1 := if ¬h.is_wet_mode ∧ cfg.hold_on ≤ oc.1 then true else h.is_wet_mode
  let m2 := if m1 = true ∧ cfg.hold_off ≤ oc.2 then false else m1
  if m2 then
    let wc : Nat × Nat :=
      if cfg.wet_on_th ≤ fullwet then (h.wet_on_counter + 1, 0)
      else if fullwet ≤ cfg.wet_off_th then (0, h.wet_off_counter + 1)
      else (h.wet_on_counter - 1, h.wet_off_counter - 1)
    let f1 := if ¬h.is_fullwet_mode ∧ cfg.wet_hold_on ≤ wc.1 then true else h.is_fullwet_mode
    let f2 := if f1 = true ∧ cfg.wet_hold_off ≤ wc.2 then false else f1
    ⟨m2, oc.1, oc.2, f2, wc.1, wc.2⟩
  else
    ⟨m2, oc.1, oc.2, false, 0, 0⟩

/-- Iterate the hysteresis block over a sequence of (wetness, fullwet)
score pairs with the default configuration. -/
def hystRun (inputs : List (ℚ × ℚ)) (h : Hyst) : Hyst :=
  inputs.foldl (fun h p => hystStep rainDefaults h p.1 p.2) h

/-! ### Advisory generator (rain_engine.py lines 342-401)

String helpers model the Python str operations used on tyre names; the
inputs are ASCII in this pipeline. -/

/-- Uppercase one ASCII character (model of the effect of str.upper on the
tyre strings used here). -/
def upChar (c : Char) : Char :=
  if 97 ≤ c.toNat ∧ c.toNat ≤ 122 then Char.ofNat (c.toNat - 32) else c

/-- Model of str.upper for ASCII input. -/
def pyUpper (s : String) : String := String.mk (s.toList.map upChar)

/-- Whitespace test for str.strip. -/
def isSpaceChar (c : Char) : Bool := c = ' ' ∨ c = '\t' ∨ c = '\n' ∨ c = '\r'

/-- Model of str.strip for ASCII input. -/
def pyStrip (s : String) : String :=
  String.mk ((((s.toList.dropWhile isSpaceChar).reverse).dropWhile isSpaceChar).reverse)

/-- Whether the pattern occurs at the head of the character list. -/
def charsHavePre : List Char → List Char → Bool
  | [], _ => true
  | _ :: _, [] => false
  | p :: ps, c :: cs => p = c && charsHavePre ps cs

/-- Whether the pattern occurs anywhere in the character list. -/
def charsHaveSub (p : List Char) : List Char → Bool
  | [] => p.isEmpty
  | c :: cs => charsHavePre p (c :: cs) || charsHaveSub p cs

/-- Python "pat in s" on strings. -/
def strContains (s pat : String) : Bool := charsHaveSub pat.toList s.toList

/-- Python s.startswith(pat). -/
def strStarts (s pat : String) : Bool := charsHavePre pat.toList s.toList

/-- The RainPitAdvice record (imported by rain_engine.py from
app.strategy_model, whose file is not part of the snapshot; modelled from
the spec: an action tag with an optional target compound, an optional
lead-time in laps and a justification string, exactly matching the two
constructor calls in rain_engine.py lines 346-351). -/
structure RainPitAdvice where
  action : String
  target : Option String
  laps : Option Nat
  reason : String
deriving DecidableEq, Repr

/-- The stay closure (rain_engine.py lines 346-347). -/
def stayAdvice (reason : String) : RainPitAdvice := ⟨"STAY OUT", none, none, reason⟩

/-- The box_in closure (rain_engine.py lines 349-351). -/
def boxInAdvice (n : Nat) (target : String) (reason : String) : RainPitAdvice :=
  let n' := max 1 n
  ⟨"BOX IN " ++ toString n', some target, some n', reason⟩

/-- The advice block of RainEngine.update (rain_engine.py lines 342-401),
as a pure function of the current tyre string, laps remaining, the two
hysteresis flags, the windowed medians, the two fused scores, the
safety-car flag and the forecast series (from which the drying-soon signal
is computed via fcTimeToBelow, line 151-152).  Note the two forecast
overrides at lines 397-401 sit inside the non-slick else branch of the
source, which this embedding reproduces verbatim. -/
def adviceOf (current_tyre : String) (laps_remaining : ℤ)
    (is_wet_mode is_fullwet_mode : Bool)
    (delta_is_med delta_wi_med weather_med rain_next_med inter_share_med : Option ℚ)
    (wetness wet_score : ℚ) (under_sc : Bool)
    (fc_series : List (Nat × Nat × Nat)) : RainPitAdvice :=
  let t_dry := fcTimeToBelow 25 fc_series
  let drying_soon := match t_dry with
    | some t => decide (t ≤ 15)
    | none => false
  let tyre := pyUpper (pyStrip current_tyre)
  let lr : ℤ := max 0 laps_remaining
  if lr ≤ 1 then stayAdvice ("≤1 lap remaining.")
  else
    let is_slick := strStarts tyre ("C") || (tyre = "SLICK" || tyre = "DRY")
    let is_inter := strContains tyre ("INTER") || (tyre = "INTERMEDIATE" || tyre = "INTER")
    let is_wet := strContains tyre ("WET")
    if is_slick then
      if is_wet_mode then
        if (match delta_is_med with
            | some d => decide (d < -(3 / 10 : ℚ))
            | none => false) then
          boxInAdvice 1 ("Intermediate") ("Δpace(I-S) says Inter already faster.")
        else
          let n := if (4 / 5 : ℚ) < wetness then 1 else 2
          let n := if under_sc then 1 else n
          boxInAdvice n ("Intermediate") ("Wetness trend suggests switching to Inter.")
      else stayAdvice ("Wetness not high enough for Inter.")
    else
      let advice :=
        if is_inter && is_fullwet_mode then
          if (match delta_wi_med with
              | some d => decide (d < -(1 / 5 : ℚ))
              | none => false) then
            boxInAdvice 1 ("Wet") ("Δpace(W-I) says Wet already faster.")
          else
            let n := if (17 / 20 : ℚ) < wet_score then 1 else 2
            let n := if under_sc then 1 else n
            boxInAdvice n ("Wet") ("Rain intensity suggests switching to Full Wet.")
        else if is_wet && !is_fullwet_mode && is_wet_mode then
          boxInAdvice 1 ("Intermediate") ("Conditions easing: Wet-mode yes, Full-wet-mode no.")
        else
          if !is_wet_mode && !(match weather_med with
              | some w => decide (3 ≤ pyint w)
              | none => false) then
            if (match rain_next_med with
                | some r => decide (r < 25)
                | none => false) &&
               (match inter_share_med with
                | some sh => decide (sh < 1 / 5)
                | none => false) then
              boxInAdvice 1 ("C4") ("Drying: low rain forecast + low Inter/Wet share.")
            else boxInAdvice 2 ("C4") ("Drying trend suggests slick soon.")
          else
            if is_wet then stayAdvice ("Stay on Wet: wet-mode still active.")
            else stayAdvice ("Stay on Inter: wet-mode still active.")
      let advice :=
        if drying_soon && !under_sc && decide (3 < lr) then
          stayAdvice ("Forecast: drying soon → avoid unnecessary tyre refresh.")
        else advice
      let advice :=
        if is_slick && is_wet_mode && drying_soon && decide (wetness < 4 / 5) && !under_sc then
          stayAdvice ("Forecast: rain phase short → try to stay out on slick.")
        else advice
      advice

/-! ### Per-car lap history and fleet pace deltas
(f1_udp.py, _update_field_metrics_and_emit, lines 632-684) -/

/-- The rolling per-compound lap-time buffers of one participant slot
(self._car_laps[i], three deques of maxlen 5, seconds). -/
structure CarLaps where
  slick : List ℚ
  inter : List ℚ
  wet : List ℚ
deriving DecidableEq, Repr

/-- Buffer lookup by tyre-category string (dict access in the source; the
categories are always one of the three strings). -/
def carGet (c : CarLaps) (cat : String) : List ℚ :=
  if cat = "SLICK" then c.slick else if cat = "INTER" then c.inter else c.wet

/-- Buffer replacement by tyre-category string. -/
def carSet (c : CarLaps) (cat : String) (buf : List ℚ) : CarLaps :=
  if cat = "SLICK" then { c with slick := buf }
  else if cat = "INTER" then { c with inter := buf }
  else { c with wet := buf }

/-- Per-car Δ(I-S) (lines 634-647): the non-slick side pools INTER and WET
laps; requires 2+ samples on each side and a delta strictly inside ±10 s,
otherwise no delta is produced for this car.  The try/except around
statistics.median is unreachable: both sides are nonempty lists of
numbers. -/
def perCarDeltaIS (c : CarLaps) : Option ℚ :=
  let slick := c.slick
  let interwet := c.inter ++ c.wet
  if 2 ≤ slick.length ∧ 2 ≤ interwet.length then
    let d := pymedian interwet - pymedian slick
    if -10 < d ∧ d < 10 then some d else none
  else none

/-- Per-car Δ(W-I) (lines 661-673). -/
def perCarDeltaWI (c : CarLaps) : Option ℚ :=
  if 2 ≤ c.wet.length ∧ 2 ≤ c.inter.length then
    let d := pymedian c.wet - pymedian c.inter
    if -10 < d ∧ d < 10 then some d else none
  else none

/-- Per-car Δ(W-S) (lines 675-681). -/
def perCarDeltaWS (c : CarLaps) : Option ℚ :=
  if 2 ≤ c.wet.length ∧ 2 ≤ c.slick.length then
    let d := pymedian c.wet - pymedian c.slick
    if -10 < d ∧ d < 10 then some d else none
  else none

/-- Fleet-level pace delta (lines 649-656 and 683-684): the median of the
qualifying per-car deltas, published only when at least 3 of them exist,
None otherwise. -/
def fieldDelta (cars : List CarLaps) (percar : CarLaps → Option ℚ) : Option ℚ :=
  let deltas := cars.filterMap percar
  if 3 ≤ deltas.length then some (pymedian deltas) else none

/-! ### Per-slot tracker state (F1UDPListener.__init__, f1_udp.py lines 121-175)

One Slot collects the i-th entry of every per-participant array of the
listener.  _pit_status is initialized to 0 for every slot and is never
reassigned anywhere in the module; the pit branch of the status handler
nevertheless reads it, and the embedding keeps it as state. -/

structure Slot where
  last_lap_ms : Option Nat
  tyre_cat : Option String
  tyre_actual : Option Nat
  tyre_visual : Option Nat
  tyre_last_seen : ℚ
  pit_status : Nat
  pit_cycle : Nat
  pending_tyre : Option String
  ignore_next_lap : Bool
  last_tyre_cat : Option String
  lap_valid : Bool
  lap_flag : String
  car_laps : CarLaps
deriving DecidableEq, Repr

/-- The initial value of every slot (listener construction). -/
def defaultSlot : Slot :=
  { last_lap_ms := none, tyre_cat := none, tyre_actual := none, tyre_visual := none,
    tyre_last_seen := 0, pit_status := 0, pit_cycle := 0, pending_tyre := none,
    ignore_next_lap := false, last_tyre_cat := none, lap_valid := true,
    lap_flag := "OK", car_laps := ⟨[], [], []⟩ }

/-- Visual-compound byte to category string (f1_udp.py lines 529-539):
8 is WET, 7 is INTER, everything else SLICK. -/
def catOfVisual (visual : Nat) : String :=
  if visual = 8 then ("WET") else if visual = 7 then ("INTER") else ("SLICK")

/-- Per-slot body of the car-status loop (f1_udp.py lines 516-568) for one
slot, given the actual/visual compound bytes of its record.  While the
slot's pit status is 1 or 2 the observed category is only remembered as
pending; on track a differing observation is applied immediately, the
stored lap time is wiped (the category often changes before the next
lap-time event), the lap is flagged TYRE_SWAP, and — when a previous
category existed — the outlap-ignore flag is armed.  Returns the new slot
and whether the packet counts as a change. -/
def statusSlotStep (now_mono : ℚ) (actual visual : Nat) (s : Slot) : Slot × Bool :=
  let s0 := { s with tyre_actual := some actual, tyre_visual := some visual }
  let tyre_cat := catOfVisual visual
  let s1 := { s0 with tyre_last_seen := now_mono }
  if s1.pit_status = 1 ∨ s1.pit_status = 2 then
    ({ s1 with pending_tyre := some tyre_cat }, false)
  else
    let prev_cat := s1.tyre_cat
    if prev_cat ≠ some tyre_cat then
      let s2 := { s1 with tyre_cat := some tyre_cat, last_lap_ms := none,
                          lap_valid := false, lap_flag := "TYRE_SWAP" }
      let s3 := if prev_cat ≠ none then { s2 with pit_cycle := 2, ignore_next_lap := true }
                else s2
      ({ s3 with last_tyre_cat := some tyre_cat }, true)
    else (s1, false)

/-- The player reference-lap buffers self._your_laps (three deques of
maxlen 5, seconds). -/
structure YourLaps where
  slick : List ℚ
  inter : List ℚ
  wet : List ℚ
deriving DecidableEq, Repr

/-- Reference-buffer lookup by category string. -/
def yourGet (y : YourLaps) (cat : String) : List ℚ :=
  if cat = "SLICK" then y.slick else if cat = "INTER" then y.inter else y.wet

/-- Reference-buffer replacement by category string. -/
def yourSet (y : YourLaps) (cat : String) (buf : List ℚ) : YourLaps :=
  if cat = "SLICK" then { y with slick := buf }
  else if cat = "INTER" then { y with inter := buf }
  else { y with wet := buf }

/-- Per-slot body of the car-telemetry loop (f1_udp.py lines 369-467,
without the pure debug scan), for slot i with decoded last-lap value
last_ms.  Only in-band values (40000..360000 ms) that differ from the
stored value are processed: lap validity and flag are computed (the
conservative IN rule, then the armed outlap rule, which compares against
the OLD stored value and always consumes the flag), the per-car rolling
buffer for the current category is fed through the robust gate, and for
the player slot the reference buffers are fed as well (the source reads
lap_valid of slot 0 — not slot i — in that guard; lv0_in is that value
for i different from 0, while for i = 0 it is the value just computed).
Returns the new slot, the new reference buffers, and the changed flag. -/
def telemetrySlotStep (i : Nat) (last_ms : Nat) (is_player : Bool) (lv0_in : Bool)
    (s : Slot) (y : YourLaps) : Slot × YourLaps × Bool :=
  if 40000 ≤ last_ms ∧ last_ms ≤ 360000 then
    if s.last_lap_ms ≠ some last_ms then
      let prev_ms := s.last_lap_ms
      let s1 := { s with last_lap_ms := some last_ms }
      let vf0 : Bool × String :=
        if s1.pit_status ≠ 0 ∧ 200000 ≤ last_ms then (false, "IN") else (true, "OK")
      let vfi : Bool × String :=
        if s1.ignore_next_lap then
          let looks : Bool :=
            (match prev_ms with
             | some p => decide (0 < p) && decide ((8000 : ℤ) ≤ (last_ms : ℤ) - (p : ℤ))
             | none => false)
            || decide (200000 ≤ last_ms)
          if looks then (false, "OUT") else (true, "OK")
        else vf0
      let valid := vfi.1
      let flag := vfi.2
      let s2 := { s1 with lap_valid := valid, lap_flag := flag, ignore_next_lap := false }
      let lap_s : ℚ := (last_ms : ℚ) / 1000
      let s3 :=
        match s2.tyre_cat with
        | some cat =>
          if valid ∧ (cat = "SLICK" ∨ cat = "INTER" ∨ cat = "WET") then
            let buf := carGet s2.car_laps cat
            if _robust_accept_lap buf lap_s then
              { s2 with car_laps := carSet s2.car_laps cat (dqAppend 5 buf lap_s) }
            else s2
          else s2
        | none => s2
      let y1 :=
        if is_player then
          let cat2 := s3.tyre_cat.getD ("SLICK")
          if (cat2 = "SLICK" ∨ cat2 = "INTER" ∨ cat2 = "WET") ∧ s3.lap_valid then
            if 20 ≤ lap_s ∧ lap_s ≤ 400 then
              let lv0 := if i = 0 then valid else lv0_in
              if s3.lap_flag = "OK" ∧ lv0 = true then
                let buf := yourGet y cat2
                if _robust_accept_lap buf lap_s then yourSet y cat2 (dqAppend 5 buf lap_s)
                else y
              else y
            else y
          else y
        else y
      (s3, y1, true)
    else (s, y, false)
  else (s, y, false)

/-! ### Listener state and whole-datagram processing
(F1UDPListener._run, f1_udp.py lines 187-584)

The embedding covers the per-datagram decode-and-mutate step of the
receive loop: header validation, the header-derived bookkeeping (player
index, session identifier, session-change reset of the reference
buffers), and the three packet branches.  The emission gate _maybe_emit
and the socket handling around the loop are out of scope here; the
aggregation it triggers is modelled separately by fieldDelta above. -/

/-- The mutable listener state touched by the decode step: the published
session signals of F1LiveState, the four debouncers, the header-derived
identifiers, the player reference buffers and the 22 participant slots. -/
structure Listener where
  safety_car_status : Option Nat
  weather : Option Nat
  rain_now_pct : Option Nat
  rain_fc_pct : Option Nat
  rain_fc_series : Option (List (Nat × Nat × Nat))
  session_uid_str : Option Nat
  player_idx : Option Nat
  session_uid : Option Nat
  last_session_uid : Option Nat
  deb_sc : Debounce
  deb_weather : Debounce
  deb_rain_now : Debounce
  deb_rain_fc : Debounce
  your_laps : YourLaps
  slots : List Slot
  last_lap_ms_by_car : List (Option Nat)
  last_lap_scan_t : ℚ
  dirty : Bool
deriving DecidableEq, Repr

/-- Listener state right after construction (f1_udp.py lines 108-175):
all signals unknown, debouncers configured with n = 6 and 0.7 s max age,
22 fresh slots. -/
def initListener : Listener :=
  { safety_car_status := none, weather := none, rain_now_pct := none,
    rain_fc_pct := none, rain_fc_series := none, session_uid_str := none,
    player_idx := none, session_uid := none, last_session_uid := none,
    deb_sc := ⟨6, 7 / 10, none, 0, 0⟩, deb_weather := ⟨6, 7 / 10, none, 0, 0⟩,
    deb_rain_now := ⟨6, 7 / 10, none, 0, 0⟩, deb_rain_fc := ⟨6, 7 / 10, none, 0, 0⟩,
    your_laps := ⟨[], [], []⟩, slots := List.replicate 22 defaultSlot,
    last_lap_ms_by_car := List.replicate 22 none, last_lap_scan_t := 0,
    dirty := false }

/-- Stable insertion into a list sorted by the first component (minute
offset); together with sortByT this models the stable Python list.sort
with key x[0]. -/
def insertByT (x : Nat × Nat × Nat) : List (Nat × Nat × Nat) → List (Nat × Nat × Nat)
  | [] => [x]
  | y :: ys => if y.1 < x.1 then y :: insertByT x ys else x :: y :: ys

/-- Stable sort of forecast samples by minute offset. -/
def sortByT (l : List (Nat × Nat × Nat)) : List (Nat × Nat × Nat) :=
  l.foldr insertByT []

/-- Deduplicate forecast samples by minute offset, keeping the first
occurrence (f1_udp.py lines 283-291: the seen-set loop). -/
def dedupByT : List (Nat × Nat × Nat) → List Nat → List (Nat × Nat × Nat)
  | [], _ => []
  | x :: xs, seen =>
    if seen.contains x.1 then dedupByT xs seen
    else x :: dedupByT xs (x.1 :: seen)

/-- Decode, range-guard, sort and deduplicate the forecast array of a
session packet (f1_udp.py lines 269-291): num_fc fixed-stride 8-byte
records starting at fc_off, each contributing (minute offset, rain
percentage, weather enum) when all three are in their plausible ranges. -/
def parseForecast (data : List Nat) (fc_off num_fc : Nat) : List (Nat × Nat × Nat) :=
  let raw := (List.range num_fc).filterMap fun j =>
    let o := fc_off + j * 8
    let time_off_min := byteAt data (o + 1)
    let weather_fc := byteAt data (o + 2)
    let rain_fc := byteAt data (o + 7)
    if time_off_min ≤ 240 ∧ weather_fc ≤ 5 ∧ rain_fc ≤ 100 then
      some (time_off_min, rain_fc, weather_fc)
    else none
  dedupByT (sortByT raw) []

/-- The session-packet branch (pid 1, f1_udp.py lines 232-346): both
length guards, the forecast extraction with its current/next rain
selection, and the four debounced signal updates; any accepted change
marks the listener dirty. -/
def sessionBranch (L : Listener) (now_wall : ℚ) (data : List Nat) : Listener :=
  if data.length < 150 then L
  else
    let base := 29
    let weather_raw := byteAt data (base + 0)
    let safety_car_off := base + 19 + 21 * 5
    if data.length ≤ safety_car_off + 3 then L
    else
      let sc_raw := byteAt data safety_car_off
      let num_fc := byteAt data (safety_car_off + 2)
      let fc_off := safety_car_off + 3
      let L0 := { L with rain_fc_series := none }
      let stride := 8
      let fc_series :=
        if 0 < num_fc ∧ fc_off + num_fc * stride ≤ data.length then
          parseForecast data fc_off num_fc
        else []
      let L1 :=
        if 0 < num_fc then
          { L0 with rain_fc_series := if fc_series = [] then none else some fc_series }
        else L0
      let rain_now_raw : Option Nat :=
        if fc_series ≠ [] then (fc_series.find? fun sm => sm.1 = 0).map fun sm => sm.2.1
        else none
      let rain_fc_raw : Option Nat :=
        if fc_series ≠ [] then
          match fc_series.find? fun sm => 0 < sm.1 with
          | some sm => some sm.2.1
          | none => some (fc_series.headD (0, 0, 0)).2.1
        else none
      let step1 : Listener × Bool :=
        match rain_now_raw with
        | some rn =>
          if rn ≤ 100 then
            let r := L1.deb_rain_now.update now_wall rn
            let L' := { L1 with deb_rain_now := r.1 }
            match r.2 with
            | some v =>
              if some v ≠ L'.rain_now_pct then ({ L' with rain_now_pct := some v }, true)
              else (L', false)
            | none => (L', false)
          else (L1, false)
        | none => (L1, false)
      let step2 : Listener × Bool :=
        match rain_fc_raw with
        | some rf =>
          if rf ≤ 100 then
            let r := step1.1.deb_rain_fc.update now_wall rf
            let L' := { step1.1 with deb_rain_fc := r.1 }
            match r.2 with
            | some v =>
              if some v ≠ L'.rain_fc_pct then
                ({ L' with rain_fc_pct := some v }, true)
              else (L', step1.2)
            | none => (L', step1.2)
          else (step1.1, step1.2)
        | none => (step1.1, step1.2)
      let step3 : Listener × Bool :=
        if weather_raw ≤ 5 then
          let r := step2.1.deb_weather.update now_wall weather_raw
          let L' := { step2.1 with deb_weather := r.1 }
          match r.2 with
          | some v =>
            if some v ≠ L'.weather then ({ L' with weather := some v }, true)
            else (L', step2.2)
          | none => (L', step2.2)
        else (step2.1, step2.2)
      let step4 : Listener × Bool :=
        if sc_raw = 0 ∨ sc_raw = 1 ∨ sc_raw = 2 ∨ sc_raw = 3 then
          let r := step3.1.deb_sc.update now_wall sc_raw
          let L' := { step3.1 with deb_sc := r.1 }
          match r.2 with
          | some v =>
            if some v ≠ L'.safety_car_status then
              ({ L' with safety_car_status := some v }, true)
            else (L', step3.2)
          | none => (L', step3.2)
        else (step3.1, step3.2)
      if step4.2 then { step4.1 with dirty := true } else step4.1

/-- Accumulator of the car-telemetry loop. -/
structure TelAcc where
  slots : List Slot
  by_car : List (Option Nat)
  your : YourLaps
  changed : Bool
deriving DecidableEq, Repr

/-- One iteration of the car-telemetry loop (pid 2) for slot i: decode
the 4-byte lap time at intra-record offset 48, keep the raw per-car copy
for nonzero sub-10^7 values, then run the per-slot step.  The lap_valid
value of slot 0 is read from the accumulator, i.e. after slot 0 was
processed earlier in the same packet, matching the loop order of the
source. -/
def telemetryCar (data : List Nat) (player : Option Nat) (acc : TelAcc) (i : Nat) : TelAcc :=
  let off := 29 + i * 57
  let last_ms := readU32 data (off + 48)
  let by_car' :=
    if last_ms ≠ 0 ∧ last_ms < 10000000 then acc.by_car.set i (some last_ms)
    else acc.by_car
  let s := acc.slots.getD i defaultSlot
  let lv0 := (acc.slots.getD 0 defaultSlot).lap_valid
  let r := telemetrySlotStep i last_ms (player = some i) lv0 s acc.your
  { slots := acc.slots.set i r.1, by_car := by_car', your := r.2.1,
    changed := acc.changed || r.2.2 }

/-- The car-telemetry branch (pid 2, f1_udp.py lines 349-492): length
guard for 22 fixed 57-byte records, the debug-scan timestamp, and the
per-slot loop; any change marks the listener dirty. -/
def telemetryBranch (L : Listener) (now_mono : ℚ) (data : List Nat) : Listener :=
  if data.length < 29 + 22 * 57 then L
  else
    let scan_t := if 1 ≤ now_mono - L.last_lap_scan_t then now_mono else L.last_lap_scan_t
    let init : TelAcc := ⟨L.slots, L.last_lap_ms_by_car, L.your_laps, false⟩
    let res := (List.range 22).foldl (telemetryCar data L.player_idx) init
    let L1 := { L with slots := res.slots, last_lap_ms_by_car := res.by_car,
                       your_laps := res.your, last_lap_scan_t := scan_t }
    if res.changed then { L1 with dirty := true } else L1

/-- The car-status loop (pid 7, f1_udp.py lines 509-568): fuel-bounded
recursion over the 22 slots, stopping early if a record would overrun the
datagram (unreachable after the branch guard, but kept from the source). -/
def statusLoop (data : List Nat) (now_mono : ℚ) :
    Nat → Nat → List Slot → Bool → List Slot × Bool
  | 0, _, slots, changed => (slots, changed)
  | fuel + 1, i, slots, changed =>
    let off := 29 + i * 55
    if data.length < off + 55 then (slots, changed)
    else
      let actual := byteAt data (off + 25)
      let visual := byteAt data (off + 26)
      let s := slots.getD i defaultSlot
      let r := statusSlotStep now_mono actual visual s
      statusLoop data now_mono fuel (i + 1) (slots.set i r.1) (changed || r.2)

/-- The car-status branch (pid 7, f1_udp.py lines 495-580): length guard
for 22 fixed 55-byte records, then the per-slot loop; any change marks
the listener dirty. -/
def statusBranch (L : Listener) (now_mono : ℚ) (data : List Nat) : Listener :=
  if data.length - 29 < 22 * 55 then L
  else
    let r := statusLoop data now_mono 22 0 L.slots false
    let L1 := { L with slots := r.1 }
    if r.2 then { L1 with dirty := true } else L1

/-- The header-derived bookkeeping run for every datagram whose header
parses (f1_udp.py lines 209-219): record the player index and the session
identifier (also into the published state), and clear the player
reference buffers when the session identifier changed. -/
def headerEffect (L : Listener) (data : List Nat) : Listener :=
  let uid := readU64 data 7
  let pidx := byteAt data 27
  let L1 := { L with player_idx := some pidx, session_uid := some uid,
                     session_uid_str := some uid }
  if some uid ≠ L1.last_session_uid then
    { L1 with last_session_uid := some uid, your_laps := ⟨[], [], []⟩ }
  else L1

/-- Processing of one inbound datagram by the receive loop (f1_udp.py
lines 205-580, everything between the socket read and _maybe_emit): a
datagram shorter than the 29-byte header is dropped without any effect
(_read_header returns None); otherwise the header bookkeeping runs and
the packet id (byte 6) dispatches to the session / telemetry / status
branch, every other id being ignored. -/
def processDatagram (L : Listener) (now_wall now_mono : ℚ) (data : List Nat) : Listener :=
  if data.length < 29 then L
  else
    let pid := byteAt data 6
    let L1 := headerEffect L data
    if pid = 1 then sessionBranch L1 now_wall data
    else if pid = 2 then telemetryBranch L1 now_mono data
    else if pid = 7 then statusBranch L1 now_mono data
    else L1

/-- A concrete listener state used to exercise the malformed-datagram
paths: one recorded 80 s reference lap and a previously seen session
identifier 1. -/
def cexListener : Listener :=
  { initListener with
      your_laps := ⟨[80], [], []⟩
      last_session_uid := some 1
      session_uid := some 1
      session_uid_str := some 1 }

/-- A concrete 29-byte datagram: a valid header with packet id 1
(session), session identifier 42 and player index 3, and no body at all
(truncated below every field-region requirement). -/
def cexDatagram : List Nat :=
  [0, 0, 0, 0, 0, 0, 1, 42, 0, 0, 0, 0, 0, 0, 0, 0, 0, 0, 0, 0, 0, 0, 0, 0, 0, 0, 0, 3, 0]

/-! ## Theorems

Helper lemmas first, then one theorem per claim (with witnesses and
counterexamples where the claim status requires them). -/

/-- Helper: while the counter stays below the threshold and every call is
younger than the max age, feeding the candidate value only bumps the
counter and emits nothing. -/
theorem Debounce.runSame_below (v : Nat) :
    ∀ (ts : List ℚ) (d : Debounce), d.candidate = some v →
    (∀ t ∈ ts, t - d.t0 < d.max_age_s) → d.count + ts.length < d.n →
    d.runSame v ts = ({ d with count := d.count + ts.length }, List.replicate ts.length none) := by
  intro ts
  induction ts with
  | nil =>
    intro d _ _ _
    simp [Debounce.runSame]
  | cons t ts ih =>
    intro d hc hage hcnt
    simp only [List.length_cons] at hcnt
    have hne : ¬(some v ≠ d.candidate) := by simp [hc]
    have hemit : ¬(d.n ≤ d.count + 1 ∨ d.max_age_s ≤ t - d.t0) := by
      push_neg
      refine ⟨by omega, ?_⟩
      have := hage t (by simp)
      linarith
    simp only [Debounce.runSame, Debounce.update, if_neg hne, if_neg hemit]
    have ih' := ih { d with count := d.count + 1 } (by simpa using hc)
      (by intro u hu; simpa using hage u (by simp [hu])) (by simpa using (by omega : d.count + 1 + ts.length < d.n))
    simp only [ih']
    have harith : d.count + 1 + ts.length = d.count + (t :: ts).length := by
      simp only [List.length_cons]
      omega
    rw [harith]
    simp [List.replicate_succ]

/-- Helper: when the counter is set to reach the threshold exactly at the
last of the submissions (all younger than the max age), every output but
the last is empty and the last emits the candidate. -/
theorem Debounce.runSame_hit (v : Nat) :
    ∀ (ts : List ℚ) (d : Debounce), d.candidate = some v →
    (∀ t ∈ ts, t - d.t0 < d.max_age_s) → d.count + ts.length = d.n → ts ≠ [] →
    (d.runSame v ts).2 = List.replicate (ts.length - 1) none ++ [some v] := by
  intro ts
  induction ts with
  | nil =>
    intro d _ _ _ h
    exact absurd rfl h
  | cons t ts ih =>
    intro d hc hage hcnt _
    simp only [List.length_cons] at hcnt
    have hne : ¬(some v ≠ d.candidate) := by simp [hc]
    by_cases hts : ts = []
    · subst hts
      simp only [List.length_nil] at hcnt
      have hthr : d.n ≤ d.count + 1 ∨ d.max_age_s ≤ t - d.t0 := Or.inl (by omega)
      simp [Debounce.runSame, Debounce.update, if_neg hne, if_pos hthr, hc]
    · have hpos : 0 < ts.length := List.length_pos.mpr hts
      have hemit : ¬(d.n ≤ d.count + 1 ∨ d.max_age_s ≤ t - d.t0) := by
        push_neg
        refine ⟨by omega, ?_⟩
        have := hage t (by simp)
        linarith
      simp only [Debounce.runSame, Debounce.update, if_neg hne, if_neg hemit]
      have ih' := ih { d with count := d.count + 1 } (by simpa using hc)
        (by intro u hu; simpa using hage u (by simp [hu]))
        (by simpa using (by omega : d.count + 1 + ts.length = d.n)) hts
      simp only [ih']
      have : ts.length - 1 + 1 = ts.length := by omega
      rw [show (t :: ts).length - 1 = ts.length by simp]
      rw [← this, List.replicate_succ]
      simp

/-- C5.  For every debouncer whose configured threshold n is at least 2
(all instances in the source use n = 6, default 5), starting from any
state whose candidate differs from the submitted value: submitting the
value n times, with every later call strictly younger than the max-age
window relative to the first, yields no output on every call before the
n-th and emits the value exactly at the n-th call; the first (differing)
call resets the candidate and the counter to 1 and returns nothing. -/
theorem debounce_threshold_emission (d : Debounce) (v : Nat) (t1 : ℚ) (ts : List ℚ)
    (hcand : d.candidate ≠ some v) (hn : 2 ≤ d.n) (hlen : ts.length + 1 = d.n)
    (hage : ∀ t ∈ ts, t - t1 < d.max_age_s) :
    (d.runSame v (t1 :: ts)).2 = List.replicate (d.n - 1) none ++ [some v] ∧
    (d.update t1 v).1.candidate = some v ∧ (d.update t1 v).1.count = 1 ∧
    (d.update t1 v).2 = none := by
  have hne : some v ≠ d.candidate := fun h => hcand h.symm
  have hupd : d.update t1 v = ({ d with candidate := some v, count := 1, t0 := t1 }, none) := by
    simp [Debounce.update, if_pos hne]
  have hts : ts ≠ [] := by
    intro h
    subst h
    simp at hlen
    omega
  refine ⟨?_, by simp [hupd], by simp [hupd], by simp [hupd]⟩
  simp only [Debounce.runSame, hupd]
  have hrest := Debounce.runSame_hit v ts { d with candidate := some v, count := 1, t0 := t1 }
    (by simp) (by simpa using hage) (by simpa using (by omega : 1 + ts.length = d.n)) hts
  simp only [hrest]
  have h1 : d.n - 1 = ts.length := by omega
  have h2 : ts.length = ts.length - 1 + 1 := by
    have := List.length_pos.mpr hts
    omega
  rw [h1, h2, List.replicate_succ]
  simp

/-- Witness for C5 at a concrete debouncer (n = 2, max age 1 s): a fresh
candidate submitted twice, the second call 0.5 s later, yields nothing
then the value. -/
theorem debounce_threshold_emission_witness :
    ((⟨2, 1, none, 0, 0⟩ : Debounce).runSame 5 (0 :: [1 / 2])).2 =
      List.replicate (2 - 1) none ++ [some 5] :=
  (debounce_threshold_emission ⟨2, 1, none, 0, 0⟩ 5 0 [1 / 2] (by simp) (by norm_num)
    (by norm_num)
    (by
      intro t ht
      rw [List.mem_singleton] at ht
      subst ht
      norm_num)).1

/-- C10.  Once the counter has reached the threshold for the current
candidate, every further submission of that same value re-emits it (on
every call, not once), and the state keeps satisfying the same condition,
until a differing value would reset the candidate. -/
theorem debounce_reemission (d : Debounce) (v : Nat) (ts : List ℚ)
    (hcand : d.candidate = some v) (hn : d.n ≤ d.count) :
    (d.runSame v ts).2 = ts.map (fun _ => some v) ∧
    (d.runSame v ts).1.candidate = some v ∧ d.n ≤ (d.runSame v ts).1.count := by
  induction ts generalizing d with
  | nil => simpa [Debounce.runSame] using ⟨hcand, hn⟩
  | cons t ts ih =>
    have hne : ¬(some v ≠ d.candidate) := by simp [hcand]
    have hthr : d.n ≤ d.count + 1 ∨ d.max_age_s ≤ t - d.t0 := Or.inl (by omega)
    have ih' := ih { d with count := d.count + 1 } (by simpa using hcand) (by simp; omega)
    simp only [Debounce.runSame, Debounce.update, if_neg hne, if_pos hthr]
    simpa [hcand] using ih'

/-- Witness for C10: a debouncer that already reached its threshold
(n = 2, count = 5) re-emits the candidate 7 on three further identical
submissions. -/
theorem debounce_reemission_witness :
    ((⟨2, 1, some 7, 5, 0⟩ : Debounce).runSame 7 [0, 0, 0]).2 =
      [0, 0, 0].map (fun _ => some (7 : Nat)) :=
  (debounce_reemission ⟨2, 1, some 7, 5, 0⟩ 7 [0, 0, 0] (by simp) (by norm_num)).1

/-- C6.  The robust outlier gate accepts a candidate iff the buffer still
holds fewer than 3 samples, or the candidate deviates from the buffer
median by at most max(2.5 s, 3.5 x 1.4826 x MAD of the buffer). -/
theorem robust_gate_characterization (buf : List ℚ) (lap_s : ℚ) :
    _robust_accept_lap buf lap_s = true ↔
      (buf.length < 3 ∨
        |lap_s - pymedian buf| ≤
          max (5 / 2) ((7 / 2) * (14826 / 10000) *
            pymedian (buf.map fun x => |x - pymedian buf|))) := by
  unfold _robust_accept_lap your_outlier_sec your_outlier_min_n
  split_ifs with h
  · simp [h]
  · rw [mul_assoc]
    simp [h]

/-- C9.  A per-car pace delta exists iff the car holds at least 2 samples
on each compound side and the delta (median difference) lies strictly
inside the ±10 s sanity bound, for each of the three delta kinds (the
non-slick side of the I-S delta pools INTER and WET as in the source);
and each published fleet field is the median of the qualifying per-car
deltas exactly when at least 3 of them exist, and is None otherwise. -/
theorem pace_delta_publication (cars : List CarLaps) (c : CarLaps) (d m : ℚ) :
    (perCarDeltaIS c = some d ↔
      2 ≤ c.slick.length ∧ 2 ≤ (c.inter ++ c.wet).length ∧
      d = pymedian (c.inter ++ c.wet) - pymedian c.slick ∧ -10 < d ∧ d < 10) ∧
    (perCarDeltaWI c = some d ↔
      2 ≤ c.wet.length ∧ 2 ≤ c.inter.length ∧
      d = pymedian c.wet - pymedian c.inter ∧ -10 < d ∧ d < 10) ∧
    (perCarDeltaWS c = some d ↔
      2 ≤ c.wet.length ∧ 2 ≤ c.slick.length ∧
      d = pymedian c.wet - pymedian c.slick ∧ -10 < d ∧ d < 10) ∧
    (fieldDelta cars perCarDeltaIS = none ↔ (cars.filterMap perCarDeltaIS).length < 3) ∧
    (fieldDelta cars perCarDeltaIS = some m ↔
      3 ≤ (cars.filterMap perCarDeltaIS).length ∧
      m = pymedian (cars.filterMap perCarDeltaIS)) ∧
    (fieldDelta cars perCarDeltaWI = none ↔ (cars.filterMap perCarDeltaWI).length < 3) ∧
    (fieldDelta cars perCarDeltaWI = some m ↔
      3 ≤ (cars.filterMap perCarDeltaWI).length ∧
      m = pymedian (cars.filterMap perCarDeltaWI)) ∧
    (fieldDelta cars perCarDeltaWS = none ↔ (cars.filterMap perCarDeltaWS).length < 3) ∧
    (fieldDelta cars perCarDeltaWS = some m ↔
      3 ≤ (cars.filterMap perCarDeltaWS).length ∧
      m = pymedian (cars.filterMap perCarDeltaWS)) := by
  have hper : ∀ (a b : ℚ) (h1 h2 : Prop) [Decidable h1] [Decidable h2],
      ((if h1 ∧ h2 then (if -10 < a - b ∧ a - b < 10 then some (a - b) else none) else none)
        = some d ↔ h1 ∧ h2 ∧ d = a - b ∧ -10 < d ∧ d < 10) := by
    intro a b h1 h2 _ _
    split_ifs with hc hb
    · constructor
      · intro h
        obtain rfl := Option.some.inj h
        exact ⟨hc.1, hc.2, rfl, hb.1, hb.2⟩
      · intro ⟨_, _, hd, _, _⟩
        rw [hd]
    · constructor
      · intro h
        exact absurd h (by simp)
      · intro ⟨_, _, hd, hb1, hb2⟩
        subst hd
        exact absurd ⟨hb1, hb2⟩ hb
    · constructor
      · intro h
        exact absurd h (by simp)
      · intro ⟨ha, hb', _⟩
        exact absurd ⟨ha, hb'⟩ hc
  have hfield : ∀ (f : CarLaps → Option ℚ),
      (fieldDelta cars f = none ↔ (cars.filterMap f).length < 3) ∧
      (fieldDelta cars f = some m ↔
        3 ≤ (cars.filterMap f).length ∧ m = pymedian (cars.filterMap f)) := by
    intro f
    unfold fieldDelta
    dsimp only
    split_ifs with h
    · refine ⟨by simp; omega, ?_⟩
      constructor
      · intro hsome
        exact ⟨h, (Option.some.inj hsome).symm⟩
      · intro ⟨_, hm⟩
        rw [hm]
    · refine ⟨by simp; omega, ?_⟩
      constructor
      · intro hsome
        exact absurd hsome (by simp)
      · intro ⟨h3, _⟩
        exact absurd h3 h
  refine ⟨?_, ?_, ?_, (hfield perCarDeltaIS).1, (hfield perCarDeltaIS).2,
    (hfield perCarDeltaWI).1, (hfield perCarDeltaWI).2,
    (hfield perCarDeltaWS).1, (hfield perCarDeltaWS).2⟩
  · unfold perCarDeltaIS
    exact hper _ _ _ _
  · unfold perCarDeltaWI
    exact hper _ _ _ _
  · unfold perCarDeltaWS
    exact hper _ _ _ _

/-- Helper: the clamp keeps every value inside the unit interval. -/
theorem clamp01_mem (x : ℚ) : 0 ≤ _clamp01 x ∧ _clamp01 x ≤ 1 := by
  unfold _clamp01
  split_ifs <;> constructor <;> linarith

/-- Helper: the weather partial score only takes values in the unit
interval. -/
theorem weatherScore_mem (wm : Option ℚ) (v : ℚ) (h : weatherScore wm = some v) :
    0 ≤ v ∧ v ≤ 1 := by
  cases wm with
  | none => simp [weatherScore] at h
  | some q =>
    simp only [weatherScore, Option.map_some] at h
    obtain rfl := Option.some.inj h
    dsimp only
    split_ifs <;> norm_num

/-- Helper: the weather floor / safety-car boost stays in the unit
interval when its fused input and the optional floor value do. -/
theorem wetnessFloorBoost_mem (w1 : ℚ) (s0 : Option ℚ) (u : Bool)
    (h0 : 0 ≤ w1) (h1 : w1 ≤ 1) (hs : ∀ v, s0 = some v → 0 ≤ v ∧ v ≤ 1) :
    0 ≤ wetnessFloorBoost w1 s0 u ∧ wetnessFloorBoost w1 s0 u ≤ 1 := by
  unfold wetnessFloorBoost
  have hw2 : 0 ≤ (match s0 with | some v => max w1 v | none => w1) ∧
      (match s0 with | some v => max w1 v | none => w1) ≤ 1 := by
    cases s0 with
    | none => exact ⟨h0, h1⟩
    | some v =>
      obtain ⟨hv0, hv1⟩ := hs v rfl
      exact ⟨le_max_of_le_left h0, max_le h1 hv1⟩
  cases u with
  | false => simpa using hw2
  | true => simpa using clamp01_mem _

/-- Helper: the full-wet floor / clamp / bump stays in the unit interval
for arbitrary inputs (the clamp runs after the floor). -/
theorem fullwetFinish_mem (fwbase : ℚ) (fw0 : Option ℚ) (hv : Bool) :
    0 ≤ fullwetFinish fwbase fw0 hv ∧ fullwetFinish fwbase fw0 hv ≤ 1 := by
  unfold fullwetFinish
  obtain ⟨hc0, hc1⟩ := clamp01_mem (match fw0 with
    | some v => max fwbase (v * (85 / 100))
    | none => fwbase)
  cases hv with
  | false => exact ⟨hc0, hc1⟩
  | true =>
    refine ⟨le_min (by norm_num) (by linarith), min_le_left _ _⟩

/-- C7.  For every combination of available and unavailable inputs, the
wetness score returned by the engine update and the full-wet score both
lie in the unit interval; and when every partial signal (weather, share,
pace delta, forecast, baseline loss) and the temperature input are
unavailable, the fused score before the weather floor is exactly 0. -/
theorem fusion_scores_bounded (wm ism dis rn bl tt ws dwi : Option ℚ) (u hv : Bool) :
    (0 ≤ (fusionStep wm ism dis rn bl tt ws dwi u hv).wetness ∧
      (fusionStep wm ism dis rn bl tt ws dwi u hv).wetness ≤ 1 ∧
      0 ≤ (fusionStep wm ism dis rn bl tt ws dwi u hv).fullwet ∧
      (fusionStep wm ism dis rn bl tt ws dwi u hv).fullwet ≤ 1) ∧
    (fusionStep none none none none none none none none u hv).wetness_pre = 0 := by
  constructor
  · unfold fusionStep
    dsimp only
    obtain ⟨ha, hb⟩ := wetnessFloorBoost_mem
      (_clamp01 (fuseWeighted (addSig (addSig (addSig (addSig (addSig [] (weatherScore wm) (3 / 10))
        (dis.map fun x => _clamp01 ((-x - 1 / 2) / 2)) (7 / 20))
        (ism.map fun x => _clamp01 ((x - 15 / 100) / (35 / 100))) (1 / 4))
        (rn.map fun x => _clamp01 ((x - 35) / 35)) (1 / 5))
        (bl.map fun x => _clamp01 ((x - 7 / 10) / 2)) (1 / 5)) +
        match tt with
        | none => 0
        | some t => _clamp01 ((22 - t) / 18) * (8 / 100)))
      (weatherScore wm) u (clamp01_mem _).1 (clamp01_mem _).2
      (fun v h => weatherScore_mem wm v h)
    obtain ⟨hc, hd⟩ := fullwetFinish_mem
      (fuseWeighted (addSig (addSig (addSig (addSig [] (fullwetWeatherScore wm) (7 / 20))
        (dwi.map fun x => _clamp01 ((-x - 1 / 5) / (13 / 10))) (7 / 20))
        (ws.map fun x => _clamp01 ((x - 5 / 100) / (25 / 100))) (1 / 4))
        (rn.map fun x => _clamp01 ((x - 60) / 30)) (1 / 5)))
      (fullwetWeatherScore wm) hv
    exact ⟨ha, hb, hc, hd⟩
  · norm_num [fusionStep, weatherScore, fullwetWeatherScore, fuseWeighted, addSig, _clamp01]

/-- Helper: the updated counters of the hysteresis block, read off the
step function: bump and reset of the opposite counter in a qualifying
regime, decay of both (floored at zero) in the dead zone. -/
theorem hystStep_counters (cfg : HystConfig) (h : Hyst) (w f : ℚ) :
    ((hystStep cfg h w f).on_counter, (hystStep cfg h w f).off_counter) =
      (if cfg.on_th ≤ w then (h.on_counter + 1, 0)
       else if w ≤ cfg.off_th then (0, h.off_counter + 1)
       else (h.on_counter - 1, h.off_counter - 1)) := by
  unfold hystStep
  dsimp only
  generalize (if cfg.on_th ≤ w then (h.on_counter + 1, 0)
    else if w ≤ cfg.off_th then (0, h.off_counter + 1)
    else (h.on_counter - 1, h.off_counter - 1)) = oc
  split_ifs <;> simp

/-- Helper: the wet-mode flag after one hysteresis pass is set iff it was
already set or the updated on-counter reached the hold-on count, and the
updated off-counter has not reached the hold-off count. -/
theorem hystStep_wet_iff (cfg : HystConfig) (h : Hyst) (w f : ℚ) :
    (hystStep cfg h w f).is_wet_mode = true ↔
      ((h.is_wet_mode = true ∨ cfg.hold_on ≤ (hystStep cfg h w f).on_counter) ∧
        ¬cfg.hold_off ≤ (hystStep cfg h w f).off_counter) := by
  unfold hystStep
  dsimp only
  generalize (if cfg.on_th ≤ w then (h.on_counter + 1, 0)
    else if w ≤ cfg.off_th then (0, h.off_counter + 1)
    else (h.on_counter - 1, h.off_counter - 1)) = oc
  split_ifs <;> simp_all

/-- Helper: the full-wet flag after one hysteresis pass is set iff wet
mode is still set after the pass, the flag was already set or its updated
on-counter reached the hold-on count, and its updated off-counter has not
reached the hold-off count; in particular it is forced off whenever wet
mode is off after the pass. -/
theorem hystStep_fullwet_iff (cfg : HystConfig) (h : Hyst) (w f : ℚ) :
    (hystStep cfg h w f).is_fullwet_mode = true ↔
      ((hystStep cfg h w f).is_wet_mode = true ∧
        (h.is_fullwet_mode = true ∨ cfg.wet_hold_on ≤ (hystStep cfg h w f).wet_on_counter) ∧
        ¬cfg.wet_hold_off ≤ (hystStep cfg h w f).wet_off_counter) := by
  unfold hystStep
  dsimp only
  generalize (if cfg.on_th ≤ w then (h.on_counter + 1, 0)
    else if w ≤ cfg.off_th then (0, h.off_counter + 1)
    else (h.on_counter - 1, h.off_counter - 1)) = oc
  generalize (if cfg.wet_on_th ≤ f then (h.wet_on_counter + 1, 0)
    else if f ≤ cfg.wet_off_th then (0, h.wet_off_counter + 1)
    else (h.wet_on_counter - 1, h.wet_off_counter - 1)) = wc
  cases hm : h.is_wet_mode <;> cases hfw : h.is_fullwet_mode <;>
    split_ifs <;> simp_all

/-- C8 (amended).  With the default configuration (hold-on 2, hold-off
3 for both machines): each flag flips only at its hold counter — wet mode
is active after an update iff it was active or its updated on-counter
reached 2, and its updated off-counter has not reached 3; the full-wet
flag obeys the same rule while wet mode remains active after the update
and is forcibly cleared otherwise; the counters bump / reset in a
qualifying regime and decay by one (floored at zero) in the dead zone;
and starting from the settled inactive state, a mode flip after two
updates happens exactly when both updates score at or above the
on-threshold — a single wobble never flips. -/
theorem hysteresis_flip_amended (h : Hyst) (w f : ℚ) :
    ((hystStep rainDefaults h w f).is_wet_mode = true ↔
      ((h.is_wet_mode = true ∨ 2 ≤ (hystStep rainDefaults h w f).on_counter) ∧
        ¬3 ≤ (hystStep rainDefaults h w f).off_counter)) ∧
    ((hystStep rainDefaults h w f).is_fullwet_mode = true ↔
      ((hystStep rainDefaults h w f).is_wet_mode = true ∧
        (h.is_fullwet_mode = true ∨ 2 ≤ (hystStep rainDefaults h w f).wet_on_counter) ∧
        ¬3 ≤ (hystStep rainDefaults h w f).wet_off_counter)) ∧
    (((hystStep rainDefaults h w f).on_counter, (hystStep rainDefaults h w f).off_counter) =
      (if (13 : ℚ) / 20 ≤ w then (h.on_counter + 1, 0)
       else if w ≤ 7 / 20 then (0, h.off_counter + 1)
       else (h.on_counter - 1, h.off_counter - 1))) ∧
    (∀ w1 w2 f1 f2 : ℚ,
      (hystStep rainDefaults (hystStep rainDefaults ⟨false, 0, 0, false, 0, 0⟩ w1 f1)
          w2 f2).is_wet_mode = true ↔
        ((13 : ℚ) / 20 ≤ w1 ∧ (13 : ℚ) / 20 ≤ w2)) := by
  refine ⟨?_, ?_, ?_, ?_⟩
  · simpa [rainDefaults] using hystStep_wet_iff rainDefaults h w f
  · simpa [rainDefaults] using hystStep_fullwet_iff rainDefaults h w f
  · simpa [rainDefaults] using hystStep_counters rainDefaults h w f
  · intro w1 w2 f1 f2
    by_cases hb1 : (13 : ℚ) / 20 ≤ w1 <;> by_cases hb2 : w1 ≤ (7 : ℚ) / 20 <;>
      by_cases hd1 : (13 : ℚ) / 20 ≤ w2 <;> by_cases hd2 : w2 ≤ (7 : ℚ) / 20 <;>
        norm_num [hystStep, rainDefaults, hb1, hb2, hd1, hd2]

/-- Counterexample for C8: starting from the fresh engine state, three
updates with score 0.7 (full-wet score 0.9) turn wet mode and then
full-wet mode on; two updates with score 0.2 leave full-wet mode on with
its off-counter still 0; the sixth update (score 0.2, full-wet score 0.9,
a qualifying-ON value for the full-wet machine) turns wet mode off and
thereby forces the full-wet flag off although its own hold counter (3)
was never reached — the full-wet flag flips without its counter reaching
the configured count, refuting the claim. -/
theorem fullwet_forced_clear_cex :
    (hystRun [(7 / 10, 9 / 10), (7 / 10, 9 / 10), (7 / 10, 9 / 10), (1 / 5, 9 / 10),
        (1 / 5, 9 / 10)] ⟨false, 0, 0, false, 0, 0⟩).is_fullwet_mode = true ∧
    (hystRun [(7 / 10, 9 / 10), (7 / 10, 9 / 10), (7 / 10, 9 / 10), (1 / 5, 9 / 10),
        (1 / 5, 9 / 10)] ⟨false, 0, 0, false, 0, 0⟩).wet_off_counter = 0 ∧
    (hystRun [(7 / 10, 9 / 10), (7 / 10, 9 / 10), (7 / 10, 9 / 10), (1 / 5, 9 / 10),
        (1 / 5, 9 / 10), (1 / 5, 9 / 10)] ⟨false, 0, 0, false, 0, 0⟩).is_fullwet_mode = false ∧
    (hystRun [(7 / 10, 9 / 10), (7 / 10, 9 / 10), (7 / 10, 9 / 10), (1 / 5, 9 / 10),
        (1 / 5, 9 / 10), (1 / 5, 9 / 10)] ⟨false, 0, 0, false, 0, 0⟩).wet_off_counter = 0 ∧
    rainDefaults.wet_hold_off = 3 ∧ rainDefaults.wet_on_th ≤ 9 / 10 := by
  norm_num [hystRun, hystStep, rainDefaults]

/-- C1 (amended).  For every slot state and observed compound: while the
slot's pit status is 1 or 2, a status packet leaves the visible tyre
category unchanged and stores the observed compound as pending; with pit
status 0 the observed compound is applied to the visible category
directly (from the packet itself, not from the pending buffer), and the
pending buffer is left untouched — it is never read or cleared anywhere
in the module (and pit status itself is never set nonzero, so the
pending path is dead in execution). -/
theorem statusStep_pit_pending_amended (s : Slot) (t : ℚ) (a v : Nat) :
    ((statusSlotStep t a v s).1.tyre_cat =
      (if s.pit_status = 1 ∨ s.pit_status = 2 then s.tyre_cat
       else some (catOfVisual v))) ∧
    ((statusSlotStep t a v s).1.pending_tyre =
      (if s.pit_status = 1 ∨ s.pit_status = 2 then some (catOfVisual v)
       else s.pending_tyre)) := by
  unfold statusSlotStep
  dsimp only
  split_ifs with h1 h2 <;> simp_all

/-- Counterexample for C1: a slot back on track (pit status 0) with a
pending INTER compound recorded and visible category SLICK receives its
first status update (visual byte 0, i.e. SLICK): the pending compound is
neither committed (the visible category stays SLICK, taken from the
packet) nor cleared (the pending buffer still holds INTER), contradicting
the commit-and-clear part of the claim. -/
theorem statusStep_pending_not_committed_cex :
    ((statusSlotStep 0 16 0 ⟨none, some ("SLICK"), none, none, 0, 0, 0, some ("INTER"),
        false, none, true, "OK", ⟨[], [], []⟩⟩).1.tyre_cat = some ("SLICK")) ∧
    ((statusSlotStep 0 16 0 ⟨none, some ("SLICK"), none, none, 0, 0, 0, some ("INTER"),
        false, none, true, "OK", ⟨[], [], []⟩⟩).1.pending_tyre = some ("INTER")) := by
  norm_num [statusSlotStep, catOfVisual]

/-- Helper: the visual-byte mapping only produces the three category
strings. -/
theorem catOfVisual_mem (v : Nat) :
    catOfVisual v = "SLICK" ∨ catOfVisual v = "INTER" ∨ catOfVisual v = "WET" := by
  unfold catOfVisual
  split_ifs <;> simp

/-- Helper carrying the full content of the on-track compound-change /
out-lap behaviour; the C2 theorem, its witness and its counterexample all
derive from this lemma. -/
theorem outlapStep_spec (s : Slot) (t : ℚ) (a v m i : Nat)
    (ip lv : Bool) (y : YourLaps)
    (hpit : s.pit_status = 0) (hcat : s.tyre_cat ≠ none)
    (hchange : s.tyre_cat ≠ some (catOfVisual v))
    (hlo : 40000 ≤ m) (hhi : m ≤ 360000) :
    ((statusSlotStep t a v s).1.tyre_cat = some (catOfVisual v)) ∧
    ((statusSlotStep t a v s).1.ignore_next_lap = true) ∧
    ((statusSlotStep t a v s).1.last_lap_ms = none) ∧
    ((telemetrySlotStep i m ip lv (statusSlotStep t a v s).1 y).1.lap_flag =
      (if 200000 ≤ m then ("OUT") else ("OK"))) ∧
    ((telemetrySlotStep i m ip lv (statusSlotStep t a v s).1 y).1.lap_valid =
      (if 200000 ≤ m then false else true)) ∧
    ((telemetrySlotStep i m ip lv (statusSlotStep t a v s).1 y).1.ignore_next_lap = false) ∧
    (carGet (telemetrySlotStep i m ip lv (statusSlotStep t a v s).1 y).1.car_laps
        (catOfVisual v) =
      (if 200000 ≤ m then carGet s.car_laps (catOfVisual v)
       else if _robust_accept_lap (carGet s.car_laps (catOfVisual v)) ((m : ℚ) / 1000) = true
       then dqAppend 5 (carGet s.car_laps (catOfVisual v)) ((m : ℚ) / 1000)
       else carGet s.car_laps (catOfVisual v))) := by
  have hnot : ¬(s.pit_status = 1 ∨ s.pit_status = 2) := by omega
  have hs1 : (statusSlotStep t a v s).1 =
      { s with tyre_actual := some a, tyre_visual := some v, tyre_last_seen := t,
               tyre_cat := some (catOfVisual v), last_lap_ms := none, lap_valid := false,
               lap_flag := "TYRE_SWAP", pit_cycle := 2, ignore_next_lap := true,
               last_tyre_cat := some (catOfVisual v) } := by
    unfold statusSlotStep
    dsimp only
    rw [if_neg hnot, if_pos (by simpa using hchange), if_pos (by simpa using hcat)]
  rw [hs1]
  refine ⟨by simp, by simp, by simp, ?_⟩
  unfold telemetrySlotStep
  dsimp only
  rw [if_pos ⟨hlo, hhi⟩, if_pos (by simp)]
  by_cases h2 : 200000 ≤ m
  · simp only [if_pos (by simp : ((none : Option Nat)
      = none ∨ True)), hpit]
    simp [h2]
  · rcases catOfVisual_mem v with hm | hm | hm <;>
      simp [h2, hm, carGet, carSet] <;>
      split_ifs <;> simp_all [carGet, carSet]

/-- C2 (amended).  When a slot on track (pit status 0) with a known tyre
category receives a status update with a different compound: the change
is visible immediately, the ignore-next-lap flag is armed, and the stored
previous lap time is cleared to None.  Consequently the immediately
following in-band lap-time reading is compared against a cleared previous
lap, so the relative ≥8000 ms heuristic cannot fire for it: the reading
is classified as an out-lap and kept out of the rolling buffers exactly
when it reaches the absolute slow-lap ceiling of 200000 ms, and is
accepted normally (through the robust gate) otherwise. -/
theorem compound_change_outlap_amended (s : Slot) (t : ℚ) (a v m i : Nat)
    (ip lv : Bool) (y : YourLaps)
    (hpit : s.pit_status = 0) (hcat : s.tyre_cat ≠ none)
    (hchange : s.tyre_cat ≠ some (catOfVisual v))
    (hlo : 40000 ≤ m) (hhi : m ≤ 360000) :
    ((statusSlotStep t a v s).1.tyre_cat = some (catOfVisual v)) ∧
    ((statusSlotStep t a v s).1.ignore_next_lap = true) ∧
    ((statusSlotStep t a v s).1.last_lap_ms = none) ∧
    ((telemetrySlotStep i m ip lv (statusSlotStep t a v s).1 y).1.lap_flag =
      (if 200000 ≤ m then ("OUT") else ("OK"))) ∧
    ((telemetrySlotStep i m ip lv (statusSlotStep t a v s).1 y).1.lap_valid =
      (if 200000 ≤ m then false else true)) ∧
    ((telemetrySlotStep i m ip lv (statusSlotStep t a v s).1 y).1.ignore_next_lap = false) ∧
    (carGet (telemetrySlotStep i m ip lv (statusSlotStep t a v s).1 y).1.car_laps
        (catOfVisual v) =
      (if 200000 ≤ m then carGet s.car_laps (catOfVisual v)
       else if _robust_accept_lap (carGet s.car_laps (catOfVisual v)) ((m : ℚ) / 1000) = true
       then dqAppend 5 (carGet s.car_laps (catOfVisual v)) ((m : ℚ) / 1000)
       else carGet s.car_laps (catOfVisual v))) :=
  outlapStep_spec s t a v m i ip lv y hpit hcat hchange hlo hhi

/-- Witness for C2 (amended) at a concrete slot: previous lap 90000 ms on
SLICK, status update to visual 7 (INTER) while on track — the category is
visible immediately. -/
theorem compound_change_outlap_amended_witness :
    (statusSlotStep 0 17 7 ⟨some 90000, some ("SLICK"), none, none, 0, 0, 0, none, false,
        none, true, "OK", ⟨[], [], []⟩⟩).1.tyre_cat = some (catOfVisual 7) :=
  (compound_change_outlap_amended
    ⟨some 90000, some ("SLICK"), none, none, 0, 0, 0, none, false, none, true, "OK",
      ⟨[], [], []⟩⟩ 0 17 7 99000 3 false false ⟨[], [], []⟩
    (by decide) (by decide) (by decide) (by decide) (by decide)).1

/-- Counterexample for C2: slot 3 is on track with previous accepted lap
90000 ms on SLICK; a status packet switches it to INTER (arming the
outlap flag and wiping the stored lap), and the very next telemetry
reading is 99000 ms — 9000 ms (≥ 8000 ms) slower than the previous lap.
The claim requires this reading to be excluded as an out-lap, but the
code accepts it: the lap is flagged OK, marked valid, and pushed into the
INTER rolling buffer (99 s), because the relative heuristic compares
against the wiped previous lap. -/
theorem outlap_relative_heuristic_cex :
    ((telemetrySlotStep 3 99000 false false
        (statusSlotStep 0 17 7 ⟨some 90000, some ("SLICK"), none, none, 0, 0, 0, none,
          false, none, true, "OK", ⟨[], [], []⟩⟩).1 ⟨[], [], []⟩).1.lap_flag = "OK") ∧
    ((telemetrySlotStep 3 99000 false false
        (statusSlotStep 0 17 7 ⟨some 90000, some ("SLICK"), none, none, 0, 0, 0, none,
          false, none, true, "OK", ⟨[], [], []⟩⟩).1 ⟨[], [], []⟩).1.lap_valid = true) ∧
    ((telemetrySlotStep 3 99000 false false
        (statusSlotStep 0 17 7 ⟨some 90000, some ("SLICK"), none, none, 0, 0, 0, none,
          false, none, true, "OK", ⟨[], [], []⟩⟩).1 ⟨[], [], []⟩).1.car_laps.inter = [99]) ∧
    99000 - 90000 ≥ 8000 := by
  have h := outlapStep_spec
    ⟨some 90000, some ("SLICK"), none, none, 0, 0, 0, none, false, none, true, "OK",
      ⟨[], [], []⟩⟩ 0 17 7 99000 3 false false ⟨[], [], []⟩
    (by decide) (by decide) (by decide) (by decide) (by decide)
  obtain ⟨-, -, -, h4, h5, -, h7⟩ := h
  refine ⟨?_, ?_, ?_, by norm_num⟩
  · rw [h4]
    norm_num
  · rw [h5]
    norm_num
  · have hc : catOfVisual 7 = "INTER" := by norm_num [catOfVisual]
    rw [hc] at h7
    rw [if_neg (by norm_num),
      if_pos (by norm_num [_robust_accept_lap, your_outlier_min_n, carGet])] at h7
    have hr : dqAppend 5 (carGet (⟨[], [], []⟩ : CarLaps) ("INTER")) (((99000 : ℕ) : ℚ) / 1000)
        = [99] := by
      norm_num [dqAppend, carGet]
    rw [hr] at h7
    simpa [carGet] using h7

/-- C3 (code evaluation at the failing input).  Player on SLICK, wet mode
active, full-wet mode off, 20 laps remaining, no safety car, wetness 0.5,
no pace deltas, and a forecast series whose sample at 8 minutes shows 20%
rain — a drying-soon signal (rain at or below 25% within 15 minutes).
The claim (and spec scenario) require the advisory to be overridden to
STAY OUT; the code returns BOX IN 2 Intermediate, because both forecast
overrides live inside the non-slick else branch (rain_engine.py lines
397-401) and the slick-specific override there can never fire (its guard
requires is_slick inside the branch where is_slick is false). -/
theorem drying_soon_slick_not_overridden :
    adviceOf ("SLICK") 20 true false none none (some 1) (some 50) (some 0) (1 / 2) 0 false
      [(8, 20, 1)] =
      ⟨"BOX IN 2", some ("Intermediate"), some 2,
        "Wetness trend suggests switching to Inter."⟩ := by
  have hA : pyUpper (pyStrip ("SLICK")) = "SLICK" := by decide
  have hB : strStarts ("SLICK") ("C") = false := by decide
  norm_num [adviceOf, fcTimeToBelow, hA, hB, boxInAdvice]
  decide

/-- Helper: the header bookkeeping touches only the player index, the
session identifiers and (on a session change) the reference buffers. -/
theorem headerEffect_fields (L : Listener) (data : List Nat) :
    (headerEffect L data).slots = L.slots ∧
    (headerEffect L data).weather = L.weather ∧
    (headerEffect L data).safety_car_status = L.safety_car_status ∧
    (headerEffect L data).rain_now_pct = L.rain_now_pct ∧
    (headerEffect L data).rain_fc_pct = L.rain_fc_pct ∧
    (headerEffect L data).rain_fc_series = L.rain_fc_series ∧
    (headerEffect L data).deb_sc = L.deb_sc ∧
    (headerEffect L data).deb_weather = L.deb_weather ∧
    (headerEffect L data).deb_rain_now = L.deb_rain_now ∧
    (headerEffect L data).deb_rain_fc = L.deb_rain_fc ∧
    (headerEffect L data).dirty = L.dirty ∧
    (headerEffect L data).last_lap_ms_by_car = L.last_lap_ms_by_car ∧
    (headerEffect L data).last_lap_scan_t = L.last_lap_scan_t ∧
    (headerEffect L data).session_uid_str = some (readU64 data 7) ∧
    (headerEffect L data).session_uid = some (readU64 data 7) ∧
    (headerEffect L data).player_idx = some (byteAt data 27) ∧
    (headerEffect L data).your_laps =
      (if some (readU64 data 7) = L.last_session_uid then L.your_laps else ⟨[], [], []⟩) := by
  unfold headerEffect
  dsimp only
  split_ifs with h <;> simp_all

/-- C4 (amended).  A datagram shorter than the 29-byte header mutates
nothing at all; a datagram with a parsable header whose body fails its
packet type's length requirement (session packet shorter than 157 bytes,
telemetry packet shorter than 29 + 22*57 bytes, status packet shorter
than 29 + 22*55 bytes, or any unrecognized packet id) is dropped without
raising and without touching any per-slot state or session signal — but
the player index and session identifier are still recorded from the
header, and a changed session identifier clears the player reference-lap
buffers. -/
theorem short_datagram_drop_amended (L : Listener) (nw nm : ℚ) (data : List Nat)
    (h : data.length < 29 ∨
      (byteAt data 6 = 1 ∧ data.length < 157) ∨
      (byteAt data 6 = 2 ∧ data.length < 1283) ∨
      (byteAt data 6 = 7 ∧ data.length < 1239) ∨
      (byteAt data 6 ≠ 1 ∧ byteAt data 6 ≠ 2 ∧ byteAt data 6 ≠ 7)) :
    (processDatagram L nw nm data).slots = L.slots ∧
    (processDatagram L nw nm data).weather = L.weather ∧
    (processDatagram L nw nm data).safety_car_status = L.safety_car_status ∧
    (processDatagram L nw nm data).rain_now_pct = L.rain_now_pct ∧
    (processDatagram L nw nm data).rain_fc_pct = L.rain_fc_pct ∧
    (processDatagram L nw nm data).rain_fc_series = L.rain_fc_series ∧
    (processDatagram L nw nm data).deb_sc = L.deb_sc ∧
    (processDatagram L nw nm data).deb_weather = L.deb_weather ∧
    (processDatagram L nw nm data).deb_rain_now = L.deb_rain_now ∧
    (processDatagram L nw nm data).deb_rain_fc = L.deb_rain_fc ∧
    (processDatagram L nw nm data).dirty = L.dirty ∧
    (processDatagram L nw nm data).last_lap_ms_by_car = L.last_lap_ms_by_car ∧
    (processDatagram L nw nm data).last_lap_scan_t = L.last_lap_scan_t ∧
    (processDatagram L nw nm data).session_uid_str =
      (if data.length < 29 then L.session_uid_str else some (readU64 data 7)) ∧
    (processDatagram L nw nm data).session_uid =
      (if data.length < 29 then L.session_uid else some (readU64 data 7)) ∧
    (processDatagram L nw nm data).player_idx =
      (if data.length < 29 then L.player_idx else some (byteAt data 27)) ∧
    (processDatagram L nw nm data).your_laps =
      (if data.length < 29 then L.your_laps
       else if some (readU64 data 7) = L.last_session_uid then L.your_laps
       else ⟨[], [], []⟩) := by
  by_cases hlen : data.length < 29
  · simp [processDatagram, hlen]
  · have heq : processDatagram L nw nm data = headerEffect L data := by
      unfold processDatagram
      rw [if_neg hlen]
      rcases h with hl | ⟨hp, hl⟩ | ⟨hp, hl⟩ | ⟨hp, hl⟩ | ⟨hp1, hp2, hp3⟩
      · exact absurd hl hlen
      · rw [if_pos hp]
        unfold sessionBranch
        by_cases h1 : data.length < 150
        · rw [if_pos h1]
        · rw [if_neg h1]
          dsimp only
          rw [if_pos (by omega)]
      · rw [if_neg (by simp [hp]), if_pos hp]
        unfold telemetryBranch
        rw [if_pos (by omega)]
      · rw [if_neg (by simp [hp]), if_neg (by simp [hp]), if_pos hp]
        unfold statusBranch
        rw [if_pos (by omega)]
      · rw [if_neg hp1, if_neg hp2, if_neg hp3]
    rw [heq]
    simp only [if_neg hlen]
    exact headerEffect_fields L data

/-- Witness for C4 (amended) at the concrete listener and the concrete
29-byte datagram (valid header, packet id 1, truncated body): the
per-slot state is untouched. -/
theorem short_datagram_drop_amended_witness :
    (processDatagram cexListener 0 0 cexDatagram).slots = cexListener.slots :=
  (short_datagram_drop_amended cexListener 0 0 cexDatagram (by decide)).1

/-- Counterexample for C4: the 29-byte datagram cexDatagram — a valid
header with packet id 1 (session) whose body is truncated below every
length requirement, carrying session identifier 42 while the listener
last saw session 1.  Processing it does mutate listener state: the
stored session identifier becomes 42 and the player reference-lap buffer
(holding one 80 s lap) is cleared, refuting the no-state-mutated part of
the claim. -/
theorem short_datagram_session_uid_cex :
    (processDatagram cexListener 0 0 cexDatagram).session_uid_str = some 42 ∧
    (processDatagram cexListener 0 0 cexDatagram).your_laps = ⟨[], [], []⟩ ∧
    cexListener.session_uid_str = some 1 ∧
    cexListener.your_laps = ⟨[80], [], []⟩ ∧
    cexDatagram.length = 29 ∧
    byteAt cexDatagram 6 = 1 := by
  refine ⟨?_, ?_, by decide, ?_, by decide, by decide⟩
  · norm_num [processDatagram, headerEffect, sessionBranch, byteAt, readU32, readU64,
      cexListener, cexDatagram, initListener]
  · norm_num [processDatagram, headerEffect, sessionBranch, byteAt, readU32, readU64,
      cexListener, cexDatagram, initListener]
  · norm_num [cexListener, initListener]
